import Mathlib

/-!
Verification of the NeMo dialogue-state-tracking driver script
`examples/nlp/dialogue_state_tracking_generative/sgd_gen.py`.

The script is configuration plumbing: it selects one of three model
classes from a substring match on the configured pretrained-language-model
name and a task flag, initializes the model (pretrained / checkpoint /
fresh), optionally trains and saves, validates dataset directories when
evaluating, and optionally runs a test phase.  We embed the configuration
data model, the Python truthiness conventions the script relies on, and
the whole control flow of `main` as a pure function producing a trace of
the observable framework calls and raised errors.
-/

/-- Python's `needle in haystack` substring test, as list infix. -/
def strContains (hay needle : String) : Prop :=
  needle.toList <:+: hay.toList

instance (hay needle : String) : Decidable (strContains hay needle) :=
  inferInstanceAs (Decidable (needle.toList <:+: hay.toList))

/-- Python's `str.lower()`: per-character lowercasing. -/
def strToLower (s : String) : String :=
  String.mk (s.toList.map Char.toLower)

/-- `cfg.model.language_model` : only the pretrained model name is read. -/
structure LanguageModelConfig where
  pretrained_model_name : String
deriving DecidableEq, Repr

/-- `cfg.model.dataset` : the task flag and the two directory entries the
script reads with `.get(key, None)`; an absent key and an explicit `None`
both surface as `none`. -/
structure DatasetConfig where
  task : String
  data_dir : Option String
  dialogues_example_dir : Option String
deriving DecidableEq, Repr

/-- `cfg.model.test_ds` : only `ds_item`'s `None`-ness is inspected; its
payload is opaque to the script. -/
structure TestDsConfig where
  ds_item : Option String
deriving DecidableEq, Repr

/-- `cfg.model` : the fields of the model section that `main` reads.
`nemo_path = none` models a `None` path; `test_ds = none` models the
attribute being absent (`hasattr` false). -/
structure ModelConfig where
  language_model : LanguageModelConfig
  dataset : DatasetConfig
  nemo_path : Option String
  tensor_model_parallel_size : Nat
  test_ds : Option TestDsConfig
deriving DecidableEq, Repr

/-- The top-level configuration object handed to `main`. -/
structure Config where
  pretrained_model : Option String
  do_training : Bool
  model : ModelConfig
deriving DecidableEq, Repr

/-- Python truthiness of an optional string: `None` and `""` are falsy. -/
def pyTruthy : Option String → Bool
  | none => false
  | some s => !s.isEmpty

/-- The three model classes the script can dispatch to. -/
inductive ModelClass where
  | SGDQAModel
  | IntentSlotClassificationModel
  | DialogueGPTModel
deriving DecidableEq, Repr

/-- The three ways the script can obtain a model instance. -/
inductive InitAction where
  | fromPretrained
  | restoreFrom
  | freshConstruct
deriving DecidableEq, Repr

/-- Errors the script run can terminate with: the interpreter's
unbound-local failure when no model class was assigned, and the two
explicit `raise ValueError(...)` statements of the evaluation branch. -/
inductive RunError where
  | unboundModelClass
  | noDatasetDir
  | dataDirNotFound (dir : String)
deriving DecidableEq, Repr

/-- Which run errors correspond to an explicit `raise ValueError` in the
script (as opposed to the interpreter-raised unbound-name error). -/
def RunError.isValueError : RunError → Bool
  | RunError.unboundModelClass => false
  | RunError.noDatasetDir => true
  | RunError.dataDirNotFound _ => true

/-- The model-class dispatch of `main` (sgd_gen.py lines 135-141):

    if 'bert' in cfg.model.language_model.pretrained_model_name:
        if cfg.model.dataset.task == 'sgd':
            model_class = SGDQAModel
        else:
            model_class = IntentSlotClassificationModel
    elif 'gpt' in cfg.model.language_model.pretrained_model_name.lower():
        model_class = DialogueGPTModel

`none` means `model_class` was never assigned. -/
def selectModelClass (cfg : Config) : Option ModelClass :=
  if strContains cfg.model.language_model.pretrained_model_name "bert" then
    if cfg.model.dataset.task = "sgd" then
      some ModelClass.SGDQAModel
    else
      some ModelClass.IntentSlotClassificationModel
  else if strContains (strToLower cfg.model.language_model.pretrained_model_name) "gpt" then
    some ModelClass.DialogueGPTModel
  else
    none

/-- `cfg.model.nemo_path and os.path.exists(cfg.model.nemo_path)`:
short-circuits on a `None` or empty path, otherwise asks the
filesystem `fs`. -/
def nemoCheckpointAvailable (cfg : Config) (fs : String → Bool) : Bool :=
  match cfg.model.nemo_path with
  | none => false
  | some p => !p.isEmpty && fs p

/-- `hasattr(cfg.model, 'test_ds') and cfg.model.test_ds.ds_item is not None`. -/
def testCondition (cfg : Config) : Bool :=
  match cfg.model.test_ds with
  | none => false
  | some t => t.ds_item.isSome

/-- Observable trace of one run of `main`: which model class was
assigned, which initialization call produced the model, whether the
restored-model data setup ran, whether `trainer.fit` ran, which path
`model.save_to` received, whether `update_data_dirs` ran, whether the
test phase (fresh single-device trainer plus `setup_multiple_test_data`)
was entered, whether `trainer.test` ran, and the error that aborted the
run, if any. -/
structure Trace where
  modelClass : Option ModelClass
  initAction : Option InitAction
  trainDataSetup : Bool
  fitCalled : Bool
  savedTo : Option String
  dataDirsUpdated : Bool
  testPhaseEntered : Bool
  testCalled : Bool
  error : Option RunError
deriving DecidableEq, Repr

/-- The control flow of `main` (sgd_gen.py lines 135-177) as a pure
function.  `fs` answers `os.path.exists`; `prepTest` is the Boolean the
external `model.prepare_test(trainer)` returns.  External framework
calls (seeding, logging, exp_manager, the model-parallel app-state
update, and the model/trainer methods themselves) are assumed to
succeed; their invocations are recorded in the trace. -/
def runMain (cfg : Config) (fs : String → Bool) (prepTest : Bool) : Trace :=
  match selectModelClass cfg with
  | none =>
      -- model_class was never assigned: the interpreter raises
      -- UnboundLocalError at its first use, inside every branch of the
      -- model-initialization `if`, before any model exists.
      { modelClass := none, initAction := none, trainDataSetup := false,
        fitCalled := false, savedTo := none, dataDirsUpdated := false,
        testPhaseEntered := false, testCalled := false,
        error := some RunError.unboundModelClass }
  | some c =>
      let ckpt : Bool := nemoCheckpointAvailable cfg fs
      let act : InitAction :=
        if pyTruthy cfg.pretrained_model then InitAction.fromPretrained
        else if ckpt then InitAction.restoreFrom
        else InitAction.freshConstruct
      let restored : Bool := pyTruthy cfg.pretrained_model || ckpt
      let trainSetup : Bool := restored && cfg.do_training
      let testP : Bool := testCondition cfg
      if cfg.do_training then
        { modelClass := some c, initAction := some act,
          trainDataSetup := trainSetup, fitCalled := true,
          savedTo := if pyTruthy cfg.model.nemo_path then cfg.model.nemo_path else none,
          dataDirsUpdated := false,
          testPhaseEntered := testP, testCalled := testP && prepTest,
          error := none }
      else
        match cfg.model.dataset.data_dir, cfg.model.dataset.dialogues_example_dir with
        | none, _ =>
            { modelClass := some c, initAction := some act,
              trainDataSetup := trainSetup, fitCalled := false,
              savedTo := none, dataDirsUpdated := false,
              testPhaseEntered := false, testCalled := false,
              error := some RunError.noDatasetDir }
        | some _, none =>
            { modelClass := some c, initAction := some act,
              trainDataSetup := trainSetup, fitCalled := false,
              savedTo := none, dataDirsUpdated := false,
              testPhaseEntered := false, testCalled := false,
              error := some RunError.noDatasetDir }
        | some d, some _ =>
            if fs d then
              { modelClass := some c, initAction := some act,
                trainDataSetup := trainSetup, fitCalled := false,
                savedTo := none, dataDirsUpdated := true,
                testPhaseEntered := testP, testCalled := testP && prepTest,
                error := none }
            else
              { modelClass := some c, initAction := some act,
                trainDataSetup := trainSetup, fitCalled := false,
                savedTo := none, dataDirsUpdated := false,
                testPhaseEntered := false, testCalled := false,
                error := some (RunError.dataDirNotFound d) }

/-- A filesystem on which no path exists. -/
def fsEmpty : String → Bool := fun _ => false

/-- Concrete configuration: BERT name, sgd task. -/
def cfgBertSgd : Config :=
  { pretrained_model := none, do_training := false,
    model := { language_model := { pretrained_model_name := "bert-base-cased" },
               dataset := { task := "sgd", data_dir := none,
                            dialogues_example_dir := none },
               nemo_path := none, tensor_model_parallel_size := 1,
               test_ds := none } }

/-- Claim C1: whenever the pretrained-language-model name contains the
BERT-family marker (the lowercase substring "bert") and the dataset task
flag equals "sgd", the model selector chooses `SGDQAModel`. -/
theorem c1_bert_sgd_selects_sgdqa (cfg : Config)
    (hb : strContains cfg.model.language_model.pretrained_model_name "bert")
    (ht : cfg.model.dataset.task = "sgd") :
    selectModelClass cfg = some ModelClass.SGDQAModel := by
  unfold selectModelClass
  rw [if_pos hb, if_pos ht]

/-- Witness for C1 at a concrete configuration. -/
theorem c1_witness :
    selectModelClass cfgBertSgd = some ModelClass.SGDQAModel :=
  c1_bert_sgd_selects_sgdqa cfgBertSgd (by decide) (by decide)

/-- Concrete configuration whose name holds both markers: lowercase
"bert" and (case-insensitively) "gpt". -/
def cfgBertGpt : Config :=
  { pretrained_model := none, do_training := false,
    model := { language_model := { pretrained_model_name := "bertgpt2" },
               dataset := { task := "zero_shot", data_dir := none,
                            dialogues_example_dir := none },
               nemo_path := none, tensor_model_parallel_size := 1,
               test_ds := none } }

/-- Counterexample to C2 as stated: the name "bertgpt2" contains the
GPT-family marker, yet the selector chooses the intent/slot classifier,
because the case-sensitive "bert" branch is tested first. -/
theorem c2_counterexample :
    strContains (strToLower cfgBertGpt.model.language_model.pretrained_model_name) "gpt"
      ∧ selectModelClass cfgBertGpt = some ModelClass.IntentSlotClassificationModel := by
  constructor
  · decide
  · decide

/-- Claim C2 (amended): whenever the pretrained-language-model name
contains "gpt" in any letter case and does NOT contain the lowercase
substring "bert", the selector chooses `DialogueGPTModel`. -/
theorem c2_gpt_selects_dialogue_gpt (cfg : Config)
    (hg : strContains (strToLower cfg.model.language_model.pretrained_model_name) "gpt")
    (hnb : ¬ strContains cfg.model.language_model.pretrained_model_name "bert") :
    selectModelClass cfg = some ModelClass.DialogueGPTModel := by
  unfold selectModelClass
  rw [if_neg hnb, if_pos hg]

/-- Concrete configuration with an upper-case GPT name. -/
def cfgGpt : Config :=
  { pretrained_model := none, do_training := false,
    model := { language_model := { pretrained_model_name := "GPT2-medium" },
               dataset := { task := "zero_shot", data_dir := none,
                            dialogues_example_dir := none },
               nemo_path := none, tensor_model_parallel_size := 1,
               test_ds := none } }

/-- Witness for the amended C2 at a concrete configuration. -/
theorem c2_witness :
    selectModelClass cfgGpt = some ModelClass.DialogueGPTModel :=
  c2_gpt_selects_dialogue_gpt cfgGpt (by decide) (by decide)

/-- Concrete configuration: BERT name, non-sgd task. -/
def cfgBertAssistant : Config :=
  { pretrained_model := none, do_training := false,
    model := { language_model := { pretrained_model_name := "bert-large-uncased" },
               dataset := { task := "assistant", data_dir := none,
                            dialogues_example_dir := none },
               nemo_path := none, tensor_model_parallel_size := 1,
               test_ds := none } }

/-- Claim C6: whenever the pretrained-language-model name contains the
BERT-family marker and the dataset task flag is not "sgd", the selector
chooses `IntentSlotClassificationModel`. -/
theorem c6_bert_other_selects_intent_slot (cfg : Config)
    (hb : strContains cfg.model.language_model.pretrained_model_name "bert")
    (ht : cfg.model.dataset.task ≠ "sgd") :
    selectModelClass cfg = some ModelClass.IntentSlotClassificationModel := by
  unfold selectModelClass
  rw [if_pos hb, if_neg ht]

/-- Witness for C6 at a concrete configuration. -/
theorem c6_witness :
    selectModelClass cfgBertAssistant = some ModelClass.IntentSlotClassificationModel :=
  c6_bert_other_selects_intent_slot cfgBertAssistant (by decide) (by decide)

/-- Helper: when a model class was selected, the initialization action is
exactly one of the three, with `from_pretrained` taking priority over an
available checkpoint, which takes priority over fresh construction. -/
theorem runMain_initAction_eq (cfg : Config) (fs : String → Bool) (p : Bool)
    (c : ModelClass) (hc : selectModelClass cfg = some c) :
    (runMain cfg fs p).initAction =
      some (if pyTruthy cfg.pretrained_model then InitAction.fromPretrained
            else if nemoCheckpointAvailable cfg fs then InitAction.restoreFrom
            else InitAction.freshConstruct) := by
  cases hdt : cfg.do_training
  · cases hd : cfg.model.dataset.data_dir with
    | none => simp [runMain, hc, hdt, hd]
    | some d =>
        cases he : cfg.model.dataset.dialogues_example_dir with
        | none => simp [runMain, hc, hdt, hd, he]
        | some e => cases hfs : fs d <;> simp [runMain, hc, hdt, hd, he, hfs]
  · simp [runMain, hc, hdt]

/-- Helper: every error a run can end with is either the unbound
model-class failure or one of the two dataset-directory `ValueError`s,
and the latter occur only on the `do_training = false` path. -/
theorem runMain_error_cases (cfg : Config) (fs : String → Bool) (p : Bool)
    (err : RunError) (herr : (runMain cfg fs p).error = some err) :
    err = RunError.unboundModelClass ∨
      (cfg.do_training = false ∧
        (err = RunError.noDatasetDir ∨ ∃ x, err = RunError.dataDirNotFound x)) := by
  cases hc : selectModelClass cfg with
  | none =>
      simp [runMain, hc] at herr
      exact Or.inl herr.symm
  | some c =>
      cases hdt : cfg.do_training
      · cases hd : cfg.model.dataset.data_dir with
        | none =>
            simp [runMain, hc, hdt, hd] at herr
            exact Or.inr ⟨rfl, Or.inl herr.symm⟩
        | some d =>
            cases he : cfg.model.dataset.dialogues_example_dir with
            | none =>
                simp [runMain, hc, hdt, hd, he] at herr
                exact Or.inr ⟨rfl, Or.inl herr.symm⟩
            | some e =>
                cases hfs : fs d
                · simp [runMain, hc, hdt, hd, he, hfs] at herr
                  exact Or.inr ⟨rfl, Or.inr ⟨d, herr.symm⟩⟩
                · simp [runMain, hc, hdt, hd, he, hfs] at herr
      · simp [runMain, hc, hdt] at herr

/-- Concrete configuration whose name holds no marker, evaluating with
unset dataset directories. -/
def cfgElectraEval : Config :=
  { pretrained_model := none, do_training := false,
    model := { language_model := { pretrained_model_name := "electra-small" },
               dataset := { task := "assistant", data_dir := none,
                            dialogues_example_dir := none },
               nemo_path := none, tensor_model_parallel_size := 1,
               test_ds := none } }

/-- Counterexample to C3 as stated: with `do_training = false` and no
data directory configured, but a pretrained-model name holding no
marker, the run ends in the unbound-model-class failure, not in a
configuration-validation `ValueError`. -/
theorem c3_counterexample :
    cfgElectraEval.do_training = false ∧
    cfgElectraEval.model.dataset.data_dir = none ∧
    (runMain cfgElectraEval fsEmpty false).error = some RunError.unboundModelClass ∧
    RunError.isValueError RunError.unboundModelClass = false := by
  decide

/-- Claim C3 (amended): for every configuration with `do_training`
false in which a model class was selected and the data directory or the
dialogues-example directory is unset, the run raises the
no-dataset-directory `ValueError` and neither evaluation setup nor the
test phase happens. -/
theorem c3_missing_dataset_dir_raises (cfg : Config) (fs : String → Bool) (p : Bool)
    (hsel : (selectModelClass cfg).isSome)
    (hdt : cfg.do_training = false)
    (hdir : cfg.model.dataset.data_dir = none ∨
            cfg.model.dataset.dialogues_example_dir = none) :
    (runMain cfg fs p).error = some RunError.noDatasetDir ∧
    RunError.isValueError RunError.noDatasetDir = true ∧
    (runMain cfg fs p).dataDirsUpdated = false ∧
    (runMain cfg fs p).testPhaseEntered = false ∧
    (runMain cfg fs p).testCalled = false := by
  obtain ⟨c, hc⟩ := Option.isSome_iff_exists.mp hsel
  rcases hdir with hd | he
  · cases hde : cfg.model.dataset.dialogues_example_dir <;>
      simp [runMain, hc, hdt, hd, hde, RunError.isValueError]
  · cases hd : cfg.model.dataset.data_dir <;>
      simp [runMain, hc, hdt, he, hd, RunError.isValueError]

/-- Witness for the amended C3 at a concrete configuration. -/
theorem c3_witness :
    (runMain cfgBertSgd fsEmpty false).error = some RunError.noDatasetDir ∧
    RunError.isValueError RunError.noDatasetDir = true ∧
    (runMain cfgBertSgd fsEmpty false).dataDirsUpdated = false ∧
    (runMain cfgBertSgd fsEmpty false).testPhaseEntered = false ∧
    (runMain cfgBertSgd fsEmpty false).testCalled = false :=
  c3_missing_dataset_dir_raises cfgBertSgd fsEmpty false (by decide) (by decide)
    (by decide)

/-- Concrete configuration with no marker, evaluating with both
directories configured but absent from the filesystem. -/
def cfgT5Eval : Config :=
  { pretrained_model := none, do_training := false,
    model := { language_model := { pretrained_model_name := "t5-base" },
               dataset := { task := "assistant", data_dir := some "/data",
                            dialogues_example_dir := some "/examples" },
               nemo_path := none, tensor_model_parallel_size := 1,
               test_ds := none } }

/-- Counterexample to C4 as stated: with `do_training = false`, both
directories configured and the data directory absent from the
filesystem, but a name holding no marker, the run ends in the
unbound-model-class failure instead of a `ValueError`. -/
theorem c4_counterexample :
    cfgT5Eval.do_training = false ∧
    cfgT5Eval.model.dataset.data_dir = some "/data" ∧
    cfgT5Eval.model.dataset.dialogues_example_dir = some "/examples" ∧
    fsEmpty "/data" = false ∧
    (runMain cfgT5Eval fsEmpty false).error = some RunError.unboundModelClass ∧
    RunError.isValueError RunError.unboundModelClass = false := by
  decide

/-- Claim C4 (amended): for every configuration with `do_training`
false in which a model class was selected, both dataset directories are
configured but the data directory does not exist on the filesystem, the
run raises the directory-not-found `ValueError`; moreover the two
dataset-directory checks are the only `ValueError`s any run can raise,
and they occur only on the evaluation path. -/
theorem c4_data_dir_not_found_raises (cfg : Config) (fs : String → Bool) (p : Bool)
    (d e : String)
    (hsel : (selectModelClass cfg).isSome)
    (hdt : cfg.do_training = false)
    (hd : cfg.model.dataset.data_dir = some d)
    (he : cfg.model.dataset.dialogues_example_dir = some e)
    (hfs : fs d = false) :
    (runMain cfg fs p).error = some (RunError.dataDirNotFound d) ∧
    RunError.isValueError (RunError.dataDirNotFound d) = true ∧
    (∀ (cfg' : Config) (fs' : String → Bool) (p' : Bool) (err : RunError),
        (runMain cfg' fs' p').error = some err →
        RunError.isValueError err = true →
        cfg'.do_training = false ∧
          (err = RunError.noDatasetDir ∨ ∃ x, err = RunError.dataDirNotFound x)) := by
  obtain ⟨c, hc⟩ := Option.isSome_iff_exists.mp hsel
  refine ⟨by simp [runMain, hc, hdt, hd, he, hfs], rfl, ?_⟩
  intro cfg' fs' p' err herr hval
  rcases runMain_error_cases cfg' fs' p' err herr with h | ⟨hdt', hcase⟩
  · rw [h] at hval
    exact absurd hval (by decide)
  · exact ⟨hdt', hcase⟩

/-- Witness for the amended C4 at a concrete configuration. -/
def cfgBertEvalDirs : Config :=
  { pretrained_model := none, do_training := false,
    model := { language_model := { pretrained_model_name := "bert-base-uncased" },
               dataset := { task := "sgd", data_dir := some "/data",
                            dialogues_example_dir := some "/examples" },
               nemo_path := none, tensor_model_parallel_size := 1,
               test_ds := none } }

/-- Witness for the amended C4: a concrete run raising the
directory-not-found error. -/
theorem c4_witness :
    (runMain cfgBertEvalDirs fsEmpty false).error =
      some (RunError.dataDirNotFound "/data") ∧
    RunError.isValueError (RunError.dataDirNotFound "/data") = true ∧
    (∀ (cfg' : Config) (fs' : String → Bool) (p' : Bool) (err : RunError),
        (runMain cfg' fs' p').error = some err →
        RunError.isValueError err = true →
        cfg'.do_training = false ∧
          (err = RunError.noDatasetDir ∨ ∃ x, err = RunError.dataDirNotFound x)) :=
  c4_data_dir_not_found_raises cfgBertEvalDirs fsEmpty false "/data" "/examples"
    (by decide) (by decide) (by decide) (by decide) (by decide)

/-- Concrete configuration with no marker and nothing to restore from. -/
def cfgBartFresh : Config :=
  { pretrained_model := none, do_training := true,
    model := { language_model := { pretrained_model_name := "bart-large" },
               dataset := { task := "assistant", data_dir := none,
                            dialogues_example_dir := none },
               nemo_path := none, tensor_model_parallel_size := 1,
               test_ds := none } }

/-- Counterexample to C5 as stated: no pretrained override and no
existing checkpoint path, yet no fresh model is constructed either,
because the name holds no marker and the run dies at the unbound model
class. -/
theorem c5_counterexample :
    pyTruthy cfgBartFresh.pretrained_model = false ∧
    nemoCheckpointAvailable cfgBartFresh fsEmpty = false ∧
    (runMain cfgBartFresh fsEmpty false).initAction = none ∧
    (runMain cfgBartFresh fsEmpty false).initAction ≠ some InitAction.freshConstruct := by
  decide

/-- Claim C5 (amended): for every configuration in which a model class
was selected, no pretrained-model override is set (Python-truthy) and
no configured checkpoint path exists on the filesystem, the model is
freshly constructed from the configuration. -/
theorem c5_fresh_construction (cfg : Config) (fs : String → Bool) (p : Bool)
    (hsel : (selectModelClass cfg).isSome)
    (hpre : pyTruthy cfg.pretrained_model = false)
    (hck : nemoCheckpointAvailable cfg fs = false) :
    (runMain cfg fs p).initAction = some InitAction.freshConstruct := by
  obtain ⟨c, hc⟩ := Option.isSome_iff_exists.mp hsel
  rw [runMain_initAction_eq cfg fs p c hc, hpre, hck]
  simp

/-- Witness for the amended C5 at a concrete configuration. -/
theorem c5_witness :
    (runMain cfgGpt fsEmpty false).initAction = some InitAction.freshConstruct :=
  c5_fresh_construction cfgGpt fsEmpty false (by decide) (by decide) (by decide)

/-- Concrete configuration with no marker. -/
def cfgXlnetInit : Config :=
  { pretrained_model := none, do_training := true,
    model := { language_model := { pretrained_model_name := "xlnet-large" },
               dataset := { task := "assistant", data_dir := none,
                            dialogues_example_dir := none },
               nemo_path := none, tensor_model_parallel_size := 1,
               test_ds := none } }

/-- Counterexample to C7 as stated: a run on which none of the three
model-initialization operations is invoked, refuting the claim that
exactly one is invoked on every run. -/
theorem c7_counterexample :
    (runMain cfgXlnetInit fsEmpty false).initAction = none ∧
    (runMain cfgXlnetInit fsEmpty false).error = some RunError.unboundModelClass := by
  decide

/-- Claim C7 (amended): on every run in which a model class was
selected, exactly one of the three model-initialization operations is
invoked, and `from_pretrained` is chosen whenever a pretrained-model
override is set, even if a checkpoint also exists; otherwise an
existing checkpoint is restored, and otherwise the model is freshly
constructed. -/
theorem c7_single_init_action (cfg : Config) (fs : String → Bool) (p : Bool)
    (hsel : (selectModelClass cfg).isSome) :
    (runMain cfg fs p).initAction =
      some (if pyTruthy cfg.pretrained_model then InitAction.fromPretrained
            else if nemoCheckpointAvailable cfg fs then InitAction.restoreFrom
            else InitAction.freshConstruct) := by
  obtain ⟨c, hc⟩ := Option.isSome_iff_exists.mp hsel
  exact runMain_initAction_eq cfg fs p c hc

/-- Filesystem on which exactly the path `/ckpt.nemo` exists. -/
def fsCkpt : String → Bool := fun s => s == "/ckpt.nemo"

/-- Concrete configuration with both a pretrained override and an
existing checkpoint path. -/
def cfgPretrainedAndCkpt : Config :=
  { pretrained_model := some "sgdqa_bertbasecased", do_training := true,
    model := { language_model := { pretrained_model_name := "bert-base-cased" },
               dataset := { task := "sgd", data_dir := none,
                            dialogues_example_dir := none },
               nemo_path := some "/ckpt.nemo", tensor_model_parallel_size := 1,
               test_ds := none } }

/-- Witness for the amended C7: with both a pretrained override and an
existing checkpoint, `from_pretrained` is the single action taken. -/
theorem c7_witness :
    (runMain cfgPretrainedAndCkpt fsCkpt false).initAction =
      some InitAction.fromPretrained :=
  (c7_single_init_action cfgPretrainedAndCkpt fsCkpt false (by decide)).trans
    (by decide)

/-- Concrete configuration with no marker and training requested. -/
def cfgBigbirdTrain : Config :=
  { pretrained_model := none, do_training := true,
    model := { language_model := { pretrained_model_name := "bigbird-roformer" },
               dataset := { task := "assistant", data_dir := none,
                            dialogues_example_dir := none },
               nemo_path := some "/model.nemo", tensor_model_parallel_size := 1,
               test_ds := none } }

/-- Counterexample to C8 as stated: `do_training` is true and a
`nemo_path` is configured, yet `trainer.fit` is never invoked and
nothing is saved, because the name holds no marker and the run dies at
the unbound model class. -/
theorem c8_counterexample :
    cfgBigbirdTrain.do_training = true ∧
    pyTruthy cfgBigbirdTrain.model.nemo_path = true ∧
    (runMain cfgBigbirdTrain fsEmpty false).fitCalled = false ∧
    (runMain cfgBigbirdTrain fsEmpty false).savedTo = none := by
  decide

/-- Claim C8 (amended): for every configuration with `do_training` true
in which a model class was selected, `trainer.fit` is invoked and the
saved-model artifact is written to the configured `nemo_path` if and
only if that path is set and non-empty (Python-truthy). -/
theorem c8_training_fit_and_save (cfg : Config) (fs : String → Bool) (p : Bool)
    (hsel : (selectModelClass cfg).isSome)
    (hdt : cfg.do_training = true) :
    (runMain cfg fs p).fitCalled = true ∧
    (runMain cfg fs p).savedTo =
      (if pyTruthy cfg.model.nemo_path then cfg.model.nemo_path else none) ∧
    ((runMain cfg fs p).savedTo).isSome = pyTruthy cfg.model.nemo_path := by
  obtain ⟨c, hc⟩ := Option.isSome_iff_exists.mp hsel
  refine ⟨by simp [runMain, hc, hdt], by simp [runMain, hc, hdt], ?_⟩
  cases hnp : cfg.model.nemo_path with
  | none => simp [runMain, hc, hdt, pyTruthy, hnp]
  | some s => cases hse : s.isEmpty <;> simp [runMain, hc, hdt, pyTruthy, hnp, hse]

/-- Concrete configuration: BERT name, training on, checkpoint path and
test split configured. -/
def cfgBertTrain : Config :=
  { pretrained_model := none, do_training := true,
    model := { language_model := { pretrained_model_name := "bert-base-cased" },
               dataset := { task := "sgd", data_dir := some "/data",
                            dialogues_example_dir := some "/examples" },
               nemo_path := some "/model.nemo", tensor_model_parallel_size := 1,
               test_ds := some { ds_item := some "test" } } }

/-- Witness for the amended C8 at a concrete configuration. -/
theorem c8_witness :
    (runMain cfgBertTrain fsEmpty false).fitCalled = true ∧
    (runMain cfgBertTrain fsEmpty false).savedTo =
      (if pyTruthy cfgBertTrain.model.nemo_path then cfgBertTrain.model.nemo_path
       else none) ∧
    ((runMain cfgBertTrain fsEmpty false).savedTo).isSome =
      pyTruthy cfgBertTrain.model.nemo_path :=
  c8_training_fit_and_save cfgBertTrain fsEmpty false (by decide) (by decide)

/-- Claim C9: when the pretrained-language-model name contains neither
the lowercase substring "bert" nor "gpt" in any letter case, no model
class is assigned and the run fails at model initialization with the
unbound-name error, which is not one of the two configuration-validation
errors; no later step of the script runs. -/
theorem c9_no_marker_unbound (cfg : Config) (fs : String → Bool) (p : Bool)
    (hnb : ¬ strContains cfg.model.language_model.pretrained_model_name "bert")
    (hng : ¬ strContains (strToLower cfg.model.language_model.pretrained_model_name) "gpt") :
    selectModelClass cfg = none ∧
    runMain cfg fs p =
      { modelClass := none, initAction := none, trainDataSetup := false,
        fitCalled := false, savedTo := none, dataDirsUpdated := false,
        testPhaseEntered := false, testCalled := false,
        error := some RunError.unboundModelClass } ∧
    RunError.isValueError RunError.unboundModelClass = false := by
  have hsel : selectModelClass cfg = none := by
    unfold selectModelClass
    rw [if_neg hnb, if_neg hng]
  refine ⟨hsel, ?_, rfl⟩
  unfold runMain
  rw [hsel]

/-- Concrete configuration whose name holds neither marker. -/
def cfgMegatron : Config :=
  { pretrained_model := none, do_training := false,
    model := { language_model := { pretrained_model_name := "megatron-t5" },
               dataset := { task := "sgd", data_dir := some "/data",
                            dialogues_example_dir := some "/examples" },
               nemo_path := none, tensor_model_parallel_size := 1,
               test_ds := none } }

/-- Witness for C9 at a concrete configuration. -/
theorem c9_witness :
    selectModelClass cfgMegatron = none ∧
    runMain cfgMegatron fsEmpty false =
      { modelClass := none, initAction := none, trainDataSetup := false,
        fitCalled := false, savedTo := none, dataDirsUpdated := false,
        testPhaseEntered := false, testCalled := false,
        error := some RunError.unboundModelClass } ∧
    RunError.isValueError RunError.unboundModelClass = false :=
  c9_no_marker_unbound cfgMegatron fsEmpty false (by decide) (by decide)

/-- Concrete configuration: BERT name, evaluation requested with no
data directory, but a test split configured. -/
def cfgBertEvalTest : Config :=
  { pretrained_model := none, do_training := false,
    model := { language_model := { pretrained_model_name := "bert-base-cased" },
               dataset := { task := "sgd", data_dir := none,
                            dialogues_example_dir := none },
               nemo_path := none, tensor_model_parallel_size := 1,
               test_ds := some { ds_item := some "test" } } }

/-- Counterexample to C10 as stated: a configuration whose `test_ds`
section has a non-`None` `ds_item`, on which the test phase is
nonetheless never entered, because the evaluation branch raises the
no-dataset-directory error first. -/
theorem c10_counterexample :
    testCondition cfgBertEvalTest = true ∧
    (runMain cfgBertEvalTest fsEmpty true).testPhaseEntered = false ∧
    (runMain cfgBertEvalTest fsEmpty true).testCalled = false := by
  decide

/-- Claim C10 (amended): on every run that raises no error, the test
phase is entered if and only if the model configuration has a `test_ds`
section whose `ds_item` is not `None`, regardless of `do_training`, and
`trainer.test` then runs exactly when `model.prepare_test` agrees. -/
theorem c10_test_phase_iff (cfg : Config) (fs : String → Bool) (p : Bool)
    (herr : (runMain cfg fs p).error = none) :
    (runMain cfg fs p).testPhaseEntered = testCondition cfg ∧
    (runMain cfg fs p).testCalled = (testCondition cfg && p) := by
  cases hc : selectModelClass cfg with
  | none => simp [runMain, hc] at herr
  | some c =>
      cases hdt : cfg.do_training
      · cases hd : cfg.model.dataset.data_dir with
        | none => simp [runMain, hc, hdt, hd] at herr
        | some d =>
            cases he : cfg.model.dataset.dialogues_example_dir with
            | none => simp [runMain, hc, hdt, hd, he] at herr
            | some e =>
                cases hfs : fs d
                · simp [runMain, hc, hdt, hd, he, hfs] at herr
                · simp [runMain, hc, hdt, hd, he, hfs]
      · simp [runMain, hc, hdt]

/-- Witness for the amended C10 at a concrete configuration. -/
theorem c10_witness :
    (runMain cfgBertTrain fsEmpty true).testPhaseEntered =
      testCondition cfgBertTrain ∧
    (runMain cfgBertTrain fsEmpty true).testCalled =
      (testCondition cfgBertTrain && true) :=
  c10_test_phase_iff cfgBertTrain fsEmpty true (by decide)
